import Mathlib

/-!
Shallow embedding of the callback/ticket protocol of the cloud-filter
repository: the ticket types of src/filter/ticket.rs, the callback dispatch
contract of src/filter/sync_filter.rs and the registration builder of
src/root/register.rs.  Stateful code is embedded as explicit state passing
over an OS-boundary state, fallible code returns Except.  The parts of the
crate that are not among the given sources (the command execution layer
command.rs, the error taxonomy error.rs, the request/info payloads, the
placeholder-file structure and the callback dispatcher) are modelled from
the specification; each such definition says so in its doc comment.
-/

/-- Modelled from the spec: the error taxonomy of error.rs (the file is not
among the given sources).  Spec section 7: NotSupported (provider declined
or omitted handling), InvalidArgument (malformed command parameters),
IoError (underlying transfer failure), Cancelled, Unknown(code). -/
inductive CloudErrorKind where
  | notSupported
  | invalidArgument
  | ioError
  | cancelled
  | unknown (code : Int)
deriving DecidableEq

/-- The closed set of operation kinds (spec section 3). -/
inductive OpKind where
  | fetchData
  | cancelFetchData
  | validateData
  | fetchPlaceholders
  | cancelFetchPlaceholders
  | opened
  | closed
  | dehydrate
  | dehydrated
  | delete
  | deleted
  | rename
  | renamed
  | stateChanged
deriving DecidableEq

/-- The terminating operation kinds: the six that require exactly one ticket
response (spec section 3). -/
def OpKind.terminating : OpKind → Bool
  | .fetchData | .validateData | .fetchPlaceholders
  | .dehydrate | .delete | .rename => true
  | _ => false

/-- Modelled from the spec: a child placeholder entry
(placeholder_file.rs::PlaceholderFile is not among the given sources),
restricted to the fields the claims need: a relative name (a wide-character
sequence, embedded as a list of naturals) identifying the entry, and its
size. -/
structure PlaceholderFile where
  relativeName : List Nat
  size : Nat
deriving DecidableEq

/-- Modelled from the spec: the primitive commands of command.rs as data
(read-at, write-at, validate-range, create-placeholders,
dehydrate-with-blob, delete, rename and deny-with-error, spec section 4.1),
plus the advisory progress report.  The embedded OS boundary records the
commands it receives as a trace. -/
inductive Command where
  | read (bufLen position : Nat)
  | write (buffer : List Nat) (position : Nat)
  | validate (first last : Nat)
  | createPlaceholders (total : Nat) (placeholders : List PlaceholderFile)
  | dehydrate (blob : List Nat)
  | delete
  | rename
  | deny (err : CloudErrorKind)
  | reportProgress (total completed : Nat)
deriving DecidableEq

/-- Raw connection key, an opaque correlation identifier (declared in
filter/mod, which is not among the given sources; embedded as Int). -/
abbrev RawConnectionKey := Int

/-- Raw transfer key, the second half of the correlation key pair. -/
abbrev RawTransferKey := Int

/-- Modelled from the spec: the OS-boundary state one in-flight operation
sees.  eof is the placeholder's logical file size; resolved records whether
a terminating command has already executed for this correlation key pair
(the spec invalidates the transfer key the moment a terminating command
executes); ctx is the operation kind of the in-flight request, which
determines the OS's read guarantee; usnBase is the next change-sequence
number; failNames lists the entries the OS will fail to create;
dehydratedBlob is the persisted provider context; persisted collects the
successfully written ranges; issued is the trace of commands delivered to
the OS. -/
structure OsState where
  eof : Nat
  resolved : Bool
  ctx : OpKind
  usnBase : Nat
  failNames : List (List Nat)
  dehydratedBlob : Option (List Nat)
  persisted : List (Nat × List Nat)
  issued : List Command
deriving DecidableEq

/-- Modelled from the spec: execution of command::Read (CfExecute with
CF_OPERATION_TYPE_RETRIEVE_DATA; command.rs is not among the given
sources).  The call always reaches the OS, so it is appended to the trace.
In a data-validation context the OS guarantees the full buffer length is
read; in any other context the read may be short only at end-of-file.  A
position past the end of file is an invalid range and fails with IoError. -/
def executeRead (bufLen position : Nat) (_ck : RawConnectionKey)
    (_tk : RawTransferKey) (os : OsState) :
    Except CloudErrorKind Nat × OsState :=
  let os1 := { os with issued := os.issued ++ [Command.read bufLen position] }
  match os.ctx with
  | OpKind.validateData =>
      if position + bufLen ≤ os.eof then (Except.ok bufLen, os1)
      else (Except.error CloudErrorKind.ioError, os1)
  | _ =>
      if position ≤ os.eof then
        (Except.ok (min bufLen (os.eof - position)), os1)
      else (Except.error CloudErrorKind.ioError, os1)

/-- Modelled from the spec: execution of command::Write (CfExecute with
CF_OPERATION_TYPE_TRANSFER_DATA).  Every write whose buffer length is not a
multiple of the 4096-byte transfer alignment and which does not end at the
logical end of file fails with InvalidArgument; otherwise the buffer is
persisted at its position. -/
def executeWrite (buffer : List Nat) (position : Nat)
    (_ck : RawConnectionKey) (_tk : RawTransferKey) (os : OsState) :
    Except CloudErrorKind Unit × OsState :=
  let os1 := { os with issued := os.issued ++ [Command.write buffer position] }
  if buffer.length % 4096 = 0 ∨ position + buffer.length = os.eof then
    (Except.ok (), { os1 with persisted := os1.persisted ++ [(position, buffer)] })
  else (Except.error CloudErrorKind.invalidArgument, os1)

/-- Modelled from the spec: execution of command::Validate (CfExecute with
CF_OPERATION_TYPE_ACK_DATA), a terminating command: it consumes the
correlation key pair; on an already-resolved pair the stale transfer key
makes the OS fail the call with IoError. -/
def executeValidate (first last : Nat) (_ck : RawConnectionKey)
    (_tk : RawTransferKey) (os : OsState) :
    Except CloudErrorKind Unit × OsState :=
  let os1 := { os with issued := os.issued ++ [Command.validate first last] }
  if os.resolved then (Except.error CloudErrorKind.ioError, os1)
  else (Except.ok (), { os1 with resolved := true })

/-- Modelled from the spec: the per-entry outcome of creating one
placeholder: the OS fails exactly the entries whose relative name appears
in failNames; every other entry succeeds, independently of the rest. -/
def entryOutcome (os : OsState) (p : PlaceholderFile) :
    Except CloudErrorKind Unit :=
  if p.relativeName ∈ os.failNames then Except.error CloudErrorKind.ioError
  else Except.ok ()

/-- Modelled from the spec: the per-entry outcome list of
CreatePlaceholders: entry i receives the monotonic change-sequence token
base + i together with its own success/failure outcome. -/
def placeholderOutcomes (os : OsState) (base : Nat) :
    List PlaceholderFile → List (Nat × Except CloudErrorKind Unit)
  | [] => []
  | p :: rest => (base, entryOutcome os p) :: placeholderOutcomes os (base + 1) rest

/-- Modelled from the spec: execution of command::CreatePlaceholders, a
terminating command; on success it returns one outcome per entry (partial
failure is reported per entry, never as one aggregate failure). -/
def executeCreatePlaceholders (total : Nat) (ps : List PlaceholderFile)
    (_ck : RawConnectionKey) (_tk : RawTransferKey) (os : OsState) :
    Except CloudErrorKind (List (Nat × Except CloudErrorKind Unit)) × OsState :=
  let os1 := { os with issued := os.issued ++ [Command.createPlaceholders total ps] }
  if os.resolved then (Except.error CloudErrorKind.ioError, os1)
  else
    (Except.ok (placeholderOutcomes os os.usnBase ps),
     { os1 with resolved := true, usnBase := os.usnBase + ps.length })

/-- Modelled from the spec: execution of command::Dehydrate, a terminating
command.  A blob over 65536 bytes is rejected before any OS call is made
(the trace is untouched); otherwise the command reaches the OS and, on
first resolution, the blob is persisted as the placeholder's provider
context. -/
def executeDehydrate (blob : List Nat) (_ck : RawConnectionKey)
    (_tk : RawTransferKey) (os : OsState) :
    Except CloudErrorKind Unit × OsState :=
  if blob.length ≤ 65536 then
    let os1 := { os with issued := os.issued ++ [Command.dehydrate blob] }
    if os.resolved then (Except.error CloudErrorKind.ioError, os1)
    else (Except.ok (), { os1 with resolved := true, dehydratedBlob := some blob })
  else (Except.error CloudErrorKind.invalidArgument, os)

/-- Modelled from the spec: execution of command::Delete, a zero-payload
terminating approval. -/
def executeDelete (_ck : RawConnectionKey) (_tk : RawTransferKey)
    (os : OsState) : Except CloudErrorKind Unit × OsState :=
  let os1 := { os with issued := os.issued ++ [Command.delete] }
  if os.resolved then (Except.error CloudErrorKind.ioError, os1)
  else (Except.ok (), { os1 with resolved := true })

/-- Modelled from the spec: execution of command::Rename, a zero-payload
terminating approval. -/
def executeRename (_ck : RawConnectionKey) (_tk : RawTransferKey)
    (os : OsState) : Except CloudErrorKind Unit × OsState :=
  let os1 := { os with issued := os.issued ++ [Command.rename] }
  if os.resolved then (Except.error CloudErrorKind.ioError, os1)
  else (Except.ok (), { os1 with resolved := true })

/-- Modelled from the spec: CfReportProviderProgress, the advisory,
non-terminating progress report; it never resolves the operation. -/
def executeReportProgress (total completed : Nat) (_ck : RawConnectionKey)
    (_tk : RawTransferKey) (os : OsState) :
    Except CloudErrorKind Unit × OsState :=
  (Except.ok (), { os with issued := os.issued ++ [Command.reportProgress total completed] })

/-- A ticket for the fetch_data callback (ticket.rs lines 16-80): it owns
the correlation key pair and exposes read-at, write-at and report-progress. -/
structure FetchData where
  connectionKey : RawConnectionKey
  transferKey : RawTransferKey
deriving DecidableEq

/-- FetchData::report_progress (ticket.rs lines 35-46): delegates to
CfReportProviderProgress with the ticket's key pair. -/
def FetchData.reportProgress (t : FetchData) (total completed : Nat)
    (os : OsState) : Except CloudErrorKind Unit × OsState :=
  executeReportProgress total completed t.connectionKey t.transferKey os

/-- FetchData::read_at (ticket.rs lines 55-61): delegates to command::Read
with the ticket's key pair; the buffer is embedded by its length, the
result is the number of bytes read. -/
def FetchData.readAt (t : FetchData) (bufLen offset : Nat) (os : OsState) :
    Except CloudErrorKind Nat × OsState :=
  executeRead bufLen offset t.connectionKey t.transferKey os

/-- FetchData::write_at (ticket.rs lines 71-77): delegates to
command::Write with the ticket's key pair. -/
def FetchData.writeAt (t : FetchData) (buf : List Nat) (offset : Nat)
    (os : OsState) : Except CloudErrorKind Unit × OsState :=
  executeWrite buf offset t.connectionKey t.transferKey os

/-- A ticket for the validate_data callback (ticket.rs lines 82-127):
exposes read-at and pass(range). -/
structure ValidateData where
  connectionKey : RawConnectionKey
  transferKey : RawTransferKey
deriving DecidableEq

/-- ValidateData::pass (ticket.rs lines 104-106): delegates to
command::Validate over the given range. -/
def ValidateData.pass (t : ValidateData) (first last : Nat) (os : OsState) :
    Except CloudErrorKind Unit × OsState :=
  executeValidate first last t.connectionKey t.transferKey os

/-- ValidateData::read_at (ticket.rs lines 118-124): delegates to
command::Read with the ticket's key pair. -/
def ValidateData.readAt (t : ValidateData) (bufLen offset : Nat)
    (os : OsState) : Except CloudErrorKind Nat × OsState :=
  executeRead bufLen offset t.connectionKey t.transferKey os

/-- A ticket for the fetch_placeholders callback (ticket.rs lines 129-155):
exposes only pass_with_placeholder. -/
structure FetchPlaceholders where
  connectionKey : RawConnectionKey
  transferKey : RawTransferKey
deriving DecidableEq

/-- FetchPlaceholders::pass_with_placeholder (ticket.rs lines 148-154):
builds command::CreatePlaceholders with total set to the length of the
placeholder slice and delegates with the ticket's key pair. -/
def FetchPlaceholders.passWithPlaceholder (t : FetchPlaceholders)
    (placeholders : List PlaceholderFile) (os : OsState) :
    Except CloudErrorKind (List (Nat × Except CloudErrorKind Unit)) × OsState :=
  executeCreatePlaceholders placeholders.length placeholders
    t.connectionKey t.transferKey os

/-- A ticket for the dehydrate callback (ticket.rs lines 157-182): exposes
pass and pass_with_blob. -/
structure Dehydrate where
  connectionKey : RawConnectionKey
  transferKey : RawTransferKey
deriving DecidableEq

/-- Dehydrate::pass (ticket.rs lines 174-176): executes command::Dehydrate
with an empty blob. -/
def Dehydrate.pass (t : Dehydrate) (os : OsState) :
    Except CloudErrorKind Unit × OsState :=
  executeDehydrate [] t.connectionKey t.transferKey os

/-- Dehydrate::pass_with_blob (ticket.rs lines 179-181): executes
command::Dehydrate with the given blob. -/
def Dehydrate.passWithBlob (t : Dehydrate) (blob : List Nat) (os : OsState) :
    Except CloudErrorKind Unit × OsState :=
  executeDehydrate blob t.connectionKey t.transferKey os

/-- A ticket for the delete callback (ticket.rs lines 184-204): exposes
only pass. -/
structure Delete where
  connectionKey : RawConnectionKey
  transferKey : RawTransferKey
deriving DecidableEq

/-- Delete::pass (ticket.rs lines 201-203): executes command::Delete. -/
def Delete.pass (t : Delete) (os : OsState) :
    Except CloudErrorKind Unit × OsState :=
  executeDelete t.connectionKey t.transferKey os

/-- A ticket for the rename callback (ticket.rs lines 206-226): exposes
only pass. -/
structure Rename where
  connectionKey : RawConnectionKey
  transferKey : RawTransferKey
deriving DecidableEq

/-- Rename::pass (ticket.rs lines 223-225): executes command::Rename. -/
def Rename.pass (t : Rename) (os : OsState) :
    Except CloudErrorKind Unit × OsState :=
  executeRename t.connectionKey t.transferKey os

/-- Modelled from the spec: the read-only request context accompanying
every callback (the Request type lives in filter/mod, which is not among
the given sources); informational only. -/
structure Request where
  path : List Nat
deriving DecidableEq

/-- Modelled from the spec: the per-operation info payload of the
fetch_data callback (filter/info is not among the given sources); the
claims do not inspect it. -/
structure FetchDataInfo
deriving DecidableEq

/-- Modelled from the spec: info payload of cancel_fetch_data. -/
structure CancelFetchDataInfo
deriving DecidableEq

/-- Modelled from the spec: info payload of validate_data. -/
structure ValidateDataInfo
deriving DecidableEq

/-- Modelled from the spec: info payload of fetch_placeholders. -/
structure FetchPlaceholdersInfo
deriving DecidableEq

/-- Modelled from the spec: info payload of cancel_fetch_placeholders. -/
structure CancelFetchPlaceholdersInfo
deriving DecidableEq

/-- Modelled from the spec: info payload of opened. -/
structure OpenedInfo
deriving DecidableEq

/-- Modelled from the spec: info payload of closed. -/
structure ClosedInfo
deriving DecidableEq

/-- Modelled from the spec: info payload of dehydrate. -/
structure DehydrateInfo
deriving DecidableEq

/-- Modelled from the spec: info payload of dehydrated. -/
structure DehydratedInfo
deriving DecidableEq

/-- Modelled from the spec: info payload of delete. -/
structure DeleteInfo
deriving DecidableEq

/-- Modelled from the spec: info payload of deleted. -/
structure DeletedInfo
deriving DecidableEq

/-- Modelled from the spec: info payload of rename. -/
structure RenameInfo
deriving DecidableEq

/-- Modelled from the spec: info payload of renamed. -/
structure RenamedInfo
deriving DecidableEq

/-- The result type the callbacks return (error.rs::CResult is not among
the given sources; the spec has every terminating-kind method return a
result). -/
abbrev CResult (α : Type) := Except CloudErrorKind α

/-- The callback dispatch contract of sync_filter.rs, embedded as a record
of one function per operation kind.  fetch_data is required; every other
terminating method defaults to Err(CloudErrorKind::NotSupported), exactly
as the trait's default bodies do (validate_data line 39, fetch_placeholders
line 50, dehydrate line 75, delete line 91, rename line 110); the notifying
methods return nothing and default to doing nothing (sync_filter.rs lines
23, 54, 58, 62, 79, 95, 114, 124).  The OS state is threaded through each
method so a handler can issue ticket commands. -/
structure SyncFilter where
  fetchData : Request → FetchData → FetchDataInfo → OsState → CResult Unit × OsState
  cancelFetchData : Request → CancelFetchDataInfo → OsState → OsState :=
    fun _ _ os => os
  validateData : Request → ValidateData → ValidateDataInfo → OsState → CResult Unit × OsState :=
    fun _ _ _ os => (Except.error CloudErrorKind.notSupported, os)
  fetchPlaceholders : Request → FetchPlaceholders → FetchPlaceholdersInfo → OsState → CResult Unit × OsState :=
    fun _ _ _ os => (Except.error CloudErrorKind.notSupported, os)
  cancelFetchPlaceholders : Request → CancelFetchPlaceholdersInfo → OsState → OsState :=
    fun _ _ os => os
  opened : Request → OpenedInfo → OsState → OsState :=
    fun _ _ os => os
  closed : Request → ClosedInfo → OsState → OsState :=
    fun _ _ os => os
  dehydrate : Request → Dehydrate → DehydrateInfo → OsState → CResult Unit × OsState :=
    fun _ _ _ os => (Except.error CloudErrorKind.notSupported, os)
  dehydrated : Request → DehydratedInfo → OsState → OsState :=
    fun _ _ os => os
  delete : Request → Delete → DeleteInfo → OsState → CResult Unit × OsState :=
    fun _ _ _ os => (Except.error CloudErrorKind.notSupported, os)
  deleted : Request → DeletedInfo → OsState → OsState :=
    fun _ _ os => os
  rename : Request → Rename → RenameInfo → OsState → CResult Unit × OsState :=
    fun _ _ _ os => (Except.error CloudErrorKind.notSupported, os)
  renamed : Request → RenamedInfo → OsState → OsState :=
    fun _ _ os => os
  stateChanged : List (List Nat) → OsState → OsState :=
    fun _ os => os

/-- Modelled from the spec: the dispatcher's handling of a terminating
callback result (the callback proxy is not among the given sources): a
handler error is turned into exactly one deny command sent to the OS, so
the OS never hangs waiting for a response. -/
def denyOnError (r : CResult Unit × OsState) : OsState :=
  match r with
  | (Except.ok _, os) => os
  | (Except.error e, os) => { os with issued := os.issued ++ [Command.deny e] }

/-- Modelled from the spec: dispatch of the validate_data callback. -/
def dispatchValidateData (f : SyncFilter) (rq : Request) (t : ValidateData)
    (inf : ValidateDataInfo) (os : OsState) : OsState :=
  denyOnError (f.validateData rq t inf os)

/-- Modelled from the spec: dispatch of the fetch_placeholders callback. -/
def dispatchFetchPlaceholders (f : SyncFilter) (rq : Request)
    (t : FetchPlaceholders) (inf : FetchPlaceholdersInfo) (os : OsState) :
    OsState :=
  denyOnError (f.fetchPlaceholders rq t inf os)

/-- Modelled from the spec: dispatch of the dehydrate callback. -/
def dispatchDehydrate (f : SyncFilter) (rq : Request) (t : Dehydrate)
    (inf : DehydrateInfo) (os : OsState) : OsState :=
  denyOnError (f.dehydrate rq t inf os)

/-- Modelled from the spec: dispatch of the delete callback. -/
def dispatchDelete (f : SyncFilter) (rq : Request) (t : Delete)
    (inf : DeleteInfo) (os : OsState) : OsState :=
  denyOnError (f.delete rq t inf os)

/-- Modelled from the spec: dispatch of the rename callback. -/
def dispatchRename (f : SyncFilter) (rq : Request) (t : Rename)
    (inf : RenameInfo) (os : OsState) : OsState :=
  denyOnError (f.rename rq t inf os)

/-- A handler that implements only the required fetch_data method and
leaves every optional callback at its default. -/
def minimalFilter : SyncFilter :=
  { fetchData := fun _ _ _ os => (Except.ok (), os) }

/-- The distinct command capabilities a ticket can expose (spec section 3's
ticket/capability table). -/
inductive Capability where
  | readAt
  | writeAt
  | reportProgress
  | passRange
  | passWithPlaceholderList
  | pass
  | passWithBlob
deriving DecidableEq

/-- Transcription of the command surface each ticket type exposes in
ticket.rs: FetchData has report_progress (line 35), read_at (line 55) and
write_at (line 71); ValidateData has pass over a range (line 104) and
read_at (line 118); FetchPlaceholders has only pass_with_placeholder (line
148); Dehydrate has pass (line 174) and pass_with_blob (line 179); Delete
has only pass (line 201); Rename has only pass (line 223).  Notifying kinds
have no ticket and so no capability. -/
def exposedCapabilities : OpKind → List Capability
  | OpKind.fetchData =>
      [Capability.readAt, Capability.writeAt, Capability.reportProgress]
  | OpKind.validateData => [Capability.readAt, Capability.passRange]
  | OpKind.fetchPlaceholders => [Capability.passWithPlaceholderList]
  | OpKind.dehydrate => [Capability.pass, Capability.passWithBlob]
  | OpKind.delete => [Capability.pass]
  | OpKind.rename => [Capability.pass]
  | _ => []

/-- The marker capabilities Rust's type system can demand of a handler
type: Send (sendable to another thread) and Sync (shareable across
threads). -/
inductive HandlerBound where
  | send
  | sync
deriving DecidableEq

/-- Transcription of the supertrait bounds of the callback dispatch
contract, declared as pub trait SyncFilter: Send + Sync (sync_filter.rs
line 12): every implementing handler type must satisfy both bounds. -/
def syncFilterSupertraits : List HandlerBound :=
  [HandlerBound.send, HandlerBound.sync]

/-- The CF_MAX_PROVIDER_VERSION_LENGTH constant of the Windows cloud
filter API (the windows crate constant register.rs checks the version
string against); its value is 256. -/
def CF_MAX_PROVIDER_VERSION_LENGTH : Nat := 256

/-- The registration builder of register.rs, restricted to the two fields
the claims concern: the optional provider version string (a wide-character
sequence, embedded as a list of naturals counted per character) and the
optional opaque context blob (a byte sequence).  A Rust assertion failure
in a builder method is embedded as none. -/
structure Registration where
  versionVal : Option (List Nat) := none
  blobVal : Option (List Nat) := none
deriving DecidableEq

/-- Registration::version (register.rs lines 111-120): asserts that the
version length does not exceed CF_MAX_PROVIDER_VERSION_LENGTH characters,
then records the version; the assertion failure (a panic) is none. -/
def Registration.version (r : Registration) (v : List Nat) :
    Option Registration :=
  if v.length ≤ CF_MAX_PROVIDER_VERSION_LENGTH then
    some { r with versionVal := some v }
  else none

/-- Registration::blob (register.rs lines 150-158): asserts that the blob
size does not exceed 65536 bytes, then records the blob; the assertion
failure (a panic) is none. -/
def Registration.blob (r : Registration) (b : List Nat) :
    Option Registration :=
  if b.length ≤ 65536 then some { r with blobVal := some b }
  else none

/-- A concrete fetch-data ticket for concrete instantiations. -/
def tFD : FetchData := { connectionKey := 1, transferKey := 2 }

/-- A concrete validate-data ticket. -/
def tVD : ValidateData := { connectionKey := 1, transferKey := 2 }

/-- A concrete fetch-placeholders ticket. -/
def tFP : FetchPlaceholders := { connectionKey := 1, transferKey := 2 }

/-- A concrete dehydrate ticket. -/
def tDH : Dehydrate := { connectionKey := 1, transferKey := 2 }

/-- A concrete delete ticket. -/
def tDEL : Delete := { connectionKey := 1, transferKey := 2 }

/-- A concrete rename ticket. -/
def tRN : Rename := { connectionKey := 1, transferKey := 2 }

/-- A concrete unresolved OS state with a 100-byte placeholder, in a
fetch-data context. -/
def os100 : OsState :=
  { eof := 100, resolved := false, ctx := OpKind.fetchData, usnBase := 5,
    failNames := [], dehydratedBlob := none, persisted := [], issued := [] }

/-- A concrete unresolved OS state in a dehydrate context. -/
def osDeh : OsState :=
  { eof := 0, resolved := false, ctx := OpKind.dehydrate, usnBase := 0,
    failNames := [], dehydratedBlob := none, persisted := [], issued := [] }

/-- A concrete OS state whose operation has already been resolved. -/
def osResolved : OsState :=
  { eof := 100, resolved := true, ctx := OpKind.dehydrate, usnBase := 0,
    failNames := [], dehydratedBlob := none, persisted := [], issued := [] }

/-- A concrete unresolved OS state in a validate-data context. -/
def osVal : OsState :=
  { eof := 100, resolved := false, ctx := OpKind.validateData, usnBase := 0,
    failNames := [], dehydratedBlob := none, persisted := [], issued := [] }

/-- A concrete unresolved OS state in a fetch-placeholders context that
fails exactly the entry named [9]. -/
def osPl : OsState :=
  { eof := 0, resolved := false, ctx := OpKind.fetchPlaceholders, usnBase := 7,
    failNames := [[9]], dehydratedBlob := none, persisted := [], issued := [] }

/-- A concrete placeholder entry the OS state osPl creates successfully. -/
def plGood : PlaceholderFile := { relativeName := [1], size := 10 }

/-- A concrete placeholder entry osPl fails to create. -/
def plBad : PlaceholderFile := { relativeName := [9], size := 20 }

/-- The default outcome value used with List.getD when indexing outcome
lists. -/
def noOutcome : Nat × Except CloudErrorKind Unit := (0, Except.ok ())

/-- C3: each ticket type exposes exactly the command capabilities legal for
its operation kind and no others: FetchData exposes read-at, write-at and
report-progress; ValidateData exposes read-at and pass(range);
FetchPlaceholders exposes only pass-with-placeholder-list; Dehydrate
exposes pass and pass-with-blob; Delete and Rename each expose only pass.
In particular a write during a Delete callback is not an exposed
capability. -/
theorem c3_ticket_capabilities :
    exposedCapabilities OpKind.fetchData =
      [Capability.readAt, Capability.writeAt, Capability.reportProgress] ∧
    exposedCapabilities OpKind.validateData =
      [Capability.readAt, Capability.passRange] ∧
    exposedCapabilities OpKind.fetchPlaceholders =
      [Capability.passWithPlaceholderList] ∧
    exposedCapabilities OpKind.dehydrate =
      [Capability.pass, Capability.passWithBlob] ∧
    exposedCapabilities OpKind.delete = [Capability.pass] ∧
    exposedCapabilities OpKind.rename = [Capability.pass] ∧
    Capability.writeAt ∉ exposedCapabilities OpKind.delete := by
  decide

/-- C9: the callback dispatch contract demands that every implementing
handler type be thread-safe: the SyncFilter trait carries both the Send and
the Sync supertrait bound. -/
theorem c9_handler_thread_safe :
    HandlerBound.send ∈ syncFilterSupertraits ∧
    HandlerBound.sync ∈ syncFilterSupertraits := by
  decide

/-- C10: for every Dehydrate ticket and OS state, pass is the very same
computation as pass_with_blob applied to the empty blob: both execute the
Dehydrate command with an empty blob payload against the same correlation
key pair, with the same result and the same effect. -/
theorem c10_pass_eq_passWithBlob_empty (t : Dehydrate) (os : OsState) :
    Dehydrate.pass t os = Dehydrate.passWithBlob t [] os := rfl

/-- C2: for each of the five optional terminating callbacks left
unimplemented, the default handler body returns the NotSupported error and
the dispatcher turns it into exactly one NotSupported denial appended to
the trace of commands sent to the OS. -/
theorem c2_default_deny_notSupported (rq : Request) (os : OsState)
    (tv : ValidateData) (iv : ValidateDataInfo)
    (tf : FetchPlaceholders) (ip : FetchPlaceholdersInfo)
    (td : Dehydrate) (idh : DehydrateInfo)
    (te : Delete) (ide : DeleteInfo)
    (tr : Rename) (irn : RenameInfo) :
    (minimalFilter.validateData rq tv iv os).1 =
      Except.error CloudErrorKind.notSupported ∧
    dispatchValidateData minimalFilter rq tv iv os =
      { os with issued := os.issued ++ [Command.deny CloudErrorKind.notSupported] } ∧
    (minimalFilter.fetchPlaceholders rq tf ip os).1 =
      Except.error CloudErrorKind.notSupported ∧
    dispatchFetchPlaceholders minimalFilter rq tf ip os =
      { os with issued := os.issued ++ [Command.deny CloudErrorKind.notSupported] } ∧
    (minimalFilter.dehydrate rq td idh os).1 =
      Except.error CloudErrorKind.notSupported ∧
    dispatchDehydrate minimalFilter rq td idh os =
      { os with issued := os.issued ++ [Command.deny CloudErrorKind.notSupported] } ∧
    (minimalFilter.delete rq te ide os).1 =
      Except.error CloudErrorKind.notSupported ∧
    dispatchDelete minimalFilter rq te ide os =
      { os with issued := os.issued ++ [Command.deny CloudErrorKind.notSupported] } ∧
    (minimalFilter.rename rq tr irn os).1 =
      Except.error CloudErrorKind.notSupported ∧
    dispatchRename minimalFilter rq tr irn os =
      { os with issued := os.issued ++ [Command.deny CloudErrorKind.notSupported] } :=
  ⟨rfl, rfl, rfl, rfl, rfl, rfl, rfl, rfl, rfl, rfl⟩

/-- C1 counterexample: on a concrete Dehydrate ticket, a first resolution
succeeds, and a second resolution attempt on the same ticket is neither a
compile-time impossibility (pass borrows the ticket) nor an
already-resolved error that avoids the OS: it issues a second Dehydrate
command to the OS — the trace holds two commands — and fails only OS-side,
with IoError (the error taxonomy has no already-resolved variant at all). -/
theorem c1_second_resolution_issues_second_command :
    (Dehydrate.pass tDH osDeh).1 = Except.ok () ∧
    (Dehydrate.pass tDH (Dehydrate.pass tDH osDeh).2).1 =
      Except.error CloudErrorKind.ioError ∧
    (Dehydrate.pass tDH (Dehydrate.pass tDH osDeh).2).2.issued =
      [Command.dehydrate [], Command.dehydrate []] :=
  ⟨rfl, rfl, rfl⟩

/-- C1 (amended): ticket resolution is not enforced to be single-use by the
library: the resolving methods borrow the ticket rather than consume it and
perform no already-resolved check, so a resolution attempt on an
already-resolved correlation key pair still issues its command to the OS,
where it fails with IoError because the transfer key is stale — not with an
'already resolved' error.  Avoiding a second resolution is a caller
obligation. -/
theorem c1_resolution_not_single_use (t : Dehydrate) (d : Delete)
    (r : Rename) (os : OsState) (h : os.resolved = true) :
    (Dehydrate.pass t os).1 = Except.error CloudErrorKind.ioError ∧
    (Dehydrate.pass t os).2.issued = os.issued ++ [Command.dehydrate []] ∧
    (Delete.pass d os).1 = Except.error CloudErrorKind.ioError ∧
    (Delete.pass d os).2.issued = os.issued ++ [Command.delete] ∧
    (Rename.pass r os).1 = Except.error CloudErrorKind.ioError ∧
    (Rename.pass r os).2.issued = os.issued ++ [Command.rename] := by
  simp [Dehydrate.pass, Delete.pass, Rename.pass, executeDehydrate,
    executeDelete, executeRename, h]

/-- C1 witness: the amended statement at a concrete ticket triple and a
concrete already-resolved OS state. -/
theorem c1_resolution_not_single_use_witness :
    (Dehydrate.pass tDH osResolved).1 = Except.error CloudErrorKind.ioError ∧
    (Dehydrate.pass tDH osResolved).2.issued =
      osResolved.issued ++ [Command.dehydrate []] ∧
    (Delete.pass tDEL osResolved).1 = Except.error CloudErrorKind.ioError ∧
    (Delete.pass tDEL osResolved).2.issued =
      osResolved.issued ++ [Command.delete] ∧
    (Rename.pass tRN osResolved).1 = Except.error CloudErrorKind.ioError ∧
    (Rename.pass tRN osResolved).2.issued =
      osResolved.issued ++ [Command.rename] :=
  c1_resolution_not_single_use tDH tDEL tRN osResolved rfl

/-- C4: a write_at on a FetchData ticket whose buffer length is not a
multiple of the 4096-byte transfer alignment and which does not end at the
logical end of file fails with InvalidArgument; a final write ending at the
logical end of file succeeds regardless of its length. -/
theorem c4_write_alignment (t : FetchData) (buf : List Nat) (offset : Nat)
    (os : OsState) :
    (buf.length % 4096 ≠ 0 ∧ offset + buf.length ≠ os.eof →
      (FetchData.writeAt t buf offset os).1 =
        Except.error CloudErrorKind.invalidArgument) ∧
    (offset + buf.length = os.eof →
      (FetchData.writeAt t buf offset os).1 = Except.ok ()) := by
  constructor
  · rintro ⟨h1, h2⟩
    simp [FetchData.writeAt, executeWrite, h1, h2]
  · intro h
    simp [FetchData.writeAt, executeWrite, h]

/-- C4 witness: a concrete misaligned 3-byte write not at end-of-file fails
with InvalidArgument, and a concrete 3-byte write ending at the 100-byte
end-of-file succeeds. -/
theorem c4_write_alignment_witness :
    (FetchData.writeAt tFD [1, 2, 3] 0 os100).1 =
      Except.error CloudErrorKind.invalidArgument ∧
    (FetchData.writeAt tFD [1, 2, 3] 97 os100).1 = Except.ok () :=
  ⟨(c4_write_alignment tFD [1, 2, 3] 0 os100).1 (by decide),
   (c4_write_alignment tFD [1, 2, 3] 97 os100).2 (by decide)⟩

/-- C6: a successful read_at on a ValidateData ticket always returns
exactly the length of the buffer passed in, whereas a successful read_at on
a FetchData ticket returns at most the buffer length and returns fewer
bytes only when the requested range extends past end-of-file. -/
theorem c6_read_length_contract :
    (∀ (t : ValidateData) (bufLen offset n : Nat) (os : OsState),
      os.ctx = OpKind.validateData →
      (ValidateData.readAt t bufLen offset os).1 = Except.ok n →
      n = bufLen) ∧
    (∀ (t : FetchData) (bufLen offset n : Nat) (os : OsState),
      os.ctx = OpKind.fetchData →
      (FetchData.readAt t bufLen offset os).1 = Except.ok n →
      n ≤ bufLen ∧ (n < bufLen → os.eof < offset + bufLen)) := by
  constructor
  · intro t bufLen offset n os hctx h
    simp only [ValidateData.readAt, executeRead, hctx] at h
    split at h
    · simp at h
      omega
    · simp at h
  · intro t bufLen offset n os hctx h
    simp only [FetchData.readAt, executeRead, hctx] at h
    split at h
    · simp at h
      rw [Nat.min_def] at h
      split at h <;> (rename_i hcond hmin; constructor <;> omega)
    · simp at h

/-- C6 witness: at a 100-byte placeholder, a 10-byte validate-context read
at offset 0 returns exactly 10 bytes, and a 64-byte fetch-context read at
offset 90 returns 10 bytes, short of the request only because the range
extends past end-of-file. -/
theorem c6_read_length_contract_witness :
    (10 : Nat) = 10 ∧
    ((10 : Nat) ≤ 64 ∧ ((10 : Nat) < 64 → os100.eof < 90 + 64)) :=
  ⟨c6_read_length_contract.1 tVD 10 0 10 osVal rfl rfl,
   c6_read_length_contract.2 tFD 64 90 10 os100 rfl rfl⟩

/-- C7: on an unresolved pair, pass_with_blob with a blob of at most 65536
bytes succeeds and the persisted provider context afterwards equals the
blob byte-for-byte; a blob over 65536 bytes is rejected with
InvalidArgument before any OS call is made (the OS state, its command trace
included, is untouched). -/
theorem c7_dehydrate_blob_limit (t : Dehydrate) (blob : List Nat)
    (os : OsState) (h : os.resolved = false) :
    (blob.length ≤ 65536 →
      (Dehydrate.passWithBlob t blob os).1 = Except.ok () ∧
      (Dehydrate.passWithBlob t blob os).2.dehydratedBlob = some blob) ∧
    (65536 < blob.length →
      (Dehydrate.passWithBlob t blob os).1 =
        Except.error CloudErrorKind.invalidArgument ∧
      (Dehydrate.passWithBlob t blob os).2 = os) := by
  constructor
  · intro hle
    simp [Dehydrate.passWithBlob, executeDehydrate, hle, h]
  · intro hgt
    simp [Dehydrate.passWithBlob, executeDehydrate, Nat.not_le.mpr hgt]

/-- C7 witness: the two-byte blob [7, 8] round-trips into the persisted
context, and a 65537-byte blob is rejected with the OS state untouched. -/
theorem c7_dehydrate_blob_limit_witness :
    ((Dehydrate.passWithBlob tDH [7, 8] osDeh).1 = Except.ok () ∧
     (Dehydrate.passWithBlob tDH [7, 8] osDeh).2.dehydratedBlob =
       some [7, 8]) ∧
    ((Dehydrate.passWithBlob tDH (List.replicate 65537 9) osDeh).1 =
       Except.error CloudErrorKind.invalidArgument ∧
     (Dehydrate.passWithBlob tDH (List.replicate 65537 9) osDeh).2 =
       osDeh) :=
  ⟨(c7_dehydrate_blob_limit tDH [7, 8] osDeh rfl).1 (by decide),
   (c7_dehydrate_blob_limit tDH (List.replicate 65537 9) osDeh rfl).2
     (by norm_num [List.length_replicate])⟩

/-- An empty registration builder, every field at its default. -/
def reg0 : Registration := {}

/-- C8: the registration builder rejects over-limit configuration inputs at
the builder itself, before register() could make any OS call: blob accepts
a byte sequence exactly when its length is at most 65536, and version
accepts a wide string exactly when its length is at most
CF_MAX_PROVIDER_VERSION_LENGTH; an over-limit input panics (embedded as
none) instead of being recorded. -/
theorem c8_registration_builder_limits (r : Registration) (b v : List Nat) :
    (b.length ≤ 65536 →
      Registration.blob r b = some { r with blobVal := some b }) ∧
    (65536 < b.length → Registration.blob r b = none) ∧
    (v.length ≤ CF_MAX_PROVIDER_VERSION_LENGTH →
      Registration.version r v = some { r with versionVal := some v }) ∧
    (CF_MAX_PROVIDER_VERSION_LENGTH < v.length →
      Registration.version r v = none) := by
  refine ⟨fun h => ?_, fun h => ?_, fun h => ?_, fun h => ?_⟩
  · simp [Registration.blob, h]
  · simp [Registration.blob, Nat.not_le.mpr h]
  · simp [Registration.version, h]
  · simp [Registration.version, Nat.not_le.mpr h]

/-- C8 witness: a 2-byte blob and a 1-character version are recorded, a
65537-byte blob and a 257-character version panic. -/
theorem c8_registration_builder_limits_witness :
    Registration.blob reg0 [1, 2] = some { reg0 with blobVal := some [1, 2] } ∧
    Registration.blob reg0 (List.replicate 65537 0) = none ∧
    Registration.version reg0 [5] = some { reg0 with versionVal := some [5] } ∧
    Registration.version reg0 (List.replicate 257 0) = none :=
  ⟨(c8_registration_builder_limits reg0 [1, 2] [5]).1 (by decide),
   (c8_registration_builder_limits reg0 (List.replicate 65537 0) [5]).2.1
     (by norm_num [List.length_replicate]),
   (c8_registration_builder_limits reg0 [1, 2] [5]).2.2.1 (by decide),
   (c8_registration_builder_limits reg0 [1, 2] (List.replicate 257 0)).2.2.2
     (by norm_num [List.length_replicate, CF_MAX_PROVIDER_VERSION_LENGTH])⟩

/-- The outcome list of CreatePlaceholders has one entry per input
placeholder. -/
theorem placeholderOutcomes_length (os : OsState) :
    ∀ (ps : List PlaceholderFile) (base : Nat),
    (placeholderOutcomes os base ps).length = ps.length := by
  intro ps
  induction ps with
  | nil => intro base; rfl
  | cons p rest ih => intro base; simp [placeholderOutcomes, ih]

/-- Replacing the placeholder at one index changes no outcome at any other
index. -/
theorem placeholderOutcomes_set_ne (os : OsState) (bad : PlaceholderFile) :
    ∀ (ps : List PlaceholderFile) (base k j : Nat), j ≠ k →
    (placeholderOutcomes os base (ps.set k bad)).getD j noOutcome =
    (placeholderOutcomes os base ps).getD j noOutcome := by
  intro ps
  induction ps with
  | nil => intro base k j hjk; simp [List.set]
  | cons p rest ih =>
    intro base k j hjk
    cases k with
    | zero =>
      cases j with
      | zero => exact absurd rfl hjk
      | succ j' => simp [List.set, placeholderOutcomes]
    | succ k' =>
      cases j with
      | zero => simp [List.set, placeholderOutcomes]
      | succ j' =>
        simp only [List.set, placeholderOutcomes, List.getD_cons_succ]
        exact ih (base + 1) k' j' (by omega)

/-- C5: pass_with_placeholder over N entries issues a CreatePlaceholders
command carrying total = N, and on an unresolved pair yields exactly N
per-entry outcomes, each a change-sequence token paired with that entry's
own success/failure result; replacing the entry at one index (for instance
with one the OS fails to create) leaves the outcome at every other index
unchanged, so a failure of entry k never suppresses or replaces the
outcomes of the other entries with one aggregate failure. -/
theorem c5_createPlaceholders_per_entry (t : FetchPlaceholders)
    (ps : List PlaceholderFile) (os : OsState) (h : os.resolved = false) :
    (FetchPlaceholders.passWithPlaceholder t ps os).2.issued =
      os.issued ++ [Command.createPlaceholders ps.length ps] ∧
    (FetchPlaceholders.passWithPlaceholder t ps os).1 =
      Except.ok (placeholderOutcomes os os.usnBase ps) ∧
    (placeholderOutcomes os os.usnBase ps).length = ps.length ∧
    ∀ (k : Nat) (bad : PlaceholderFile) (j : Nat), j ≠ k →
      (placeholderOutcomes os os.usnBase (ps.set k bad)).getD j noOutcome =
      (placeholderOutcomes os os.usnBase ps).getD j noOutcome := by
  refine ⟨?_, ?_, placeholderOutcomes_length os ps os.usnBase, ?_⟩
  · simp [FetchPlaceholders.passWithPlaceholder, executeCreatePlaceholders, h]
  · simp [FetchPlaceholders.passWithPlaceholder, executeCreatePlaceholders, h]
  · intro k bad j hjk
    exact placeholderOutcomes_set_ne os bad ps os.usnBase k j hjk

/-- C5 witness: over the two concrete entries plGood and plBad the outcome
list has exactly two entries, and swapping the second entry for the failing
plBad leaves the first entry's outcome unchanged. -/
theorem c5_createPlaceholders_per_entry_witness :
    (placeholderOutcomes osPl osPl.usnBase [plGood, plBad]).length = 2 ∧
    (placeholderOutcomes osPl osPl.usnBase
        ([plGood, plGood].set 1 plBad)).getD 0 noOutcome =
      (placeholderOutcomes osPl osPl.usnBase [plGood, plGood]).getD 0
        noOutcome :=
  ⟨(c5_createPlaceholders_per_entry tFP [plGood, plBad] osPl rfl).2.2.1,
   (c5_createPlaceholders_per_entry tFP [plGood, plGood] osPl rfl).2.2.2
     1 plBad 0 (by decide)⟩
